import Mathlib

/-!
Shallow embedding of the diff-collection and commit-message-generation
pipeline of the commit-with-ai VS Code extension (class AiCommitProvider
in the aiCommitProvider source file).  Host services (the git extension
API, the workspace file system, the OpenAI completion endpoint) are
modelled as explicit inputs; user-visible notifications and console logs
are modelled as output fields, so that the error-handling behaviour of
the source is a provable function of its inputs.
-/

/-- Embeds a value thrown by JavaScript code.  An errorInstance is an
object satisfying instanceof Error: it always carries a message string and
may carry a gitErrorCode field (git extension errors do).  An objectValue
is a non-Error object (its optional fields model presence of the
gitErrorCode and message properties tested by the isGitError type guard).
A primitiveValue is a thrown non-object (null, string, number...). -/
inductive ThrownValue where
  | errorInstance (gitErrorCode : Option String) (message : String)
  | objectValue (gitErrorCode : Option String) (message : Option String)
  | primitiveValue
deriving DecidableEq

/-- Embeds the JavaScript substring test used in the source
(String.prototype.includes): pat occurs as a contiguous run in the list. -/
def containsSublist (pat : List Char) : List Char → Bool
  | [] => pat.isEmpty
  | c :: rest => pat.isPrefixOf (c :: rest) || containsSublist pat rest

/-- s.includes(pat) on JavaScript strings, on the code-point view. -/
def includesSub (s pat : String) : Bool :=
  containsSublist pat.data s.data

/-- Embeds the type guard isGitError: the thrown value is a non-null object
with a gitErrorCode or message property.  Every Error instance has a
message, so errorInstance always passes. -/
def isGitError : ThrownValue → Bool
  | .errorInstance _ _ => true
  | .objectValue code msg => code.isSome || msg.isSome
  | .primitiveValue => false

/-- Embeds the not-tracked-file test of getFileDiff (lines 140-144 of the
source): isGitError(error) and (gitErrorCode is NotAGitRepository or
UnknownPath, or the message contains the git unknown-path phrase). -/
def isNotTrackedError (e : ThrownValue) : Bool :=
  isGitError e &&
    (match e with
     | .errorInstance code msg =>
         code == some "NotAGitRepository" || code == some "UnknownPath" ||
         includesSub msg "did not match any file(s) known to git"
     | .objectValue code msg =>
         code == some "NotAGitRepository" || code == some "UnknownPath" ||
         (match msg with
          | some m => includesSub m "did not match any file(s) known to git"
          | none => false)
     | .primitiveValue => false)

/-- Code-point ranges carrying the Unicode Emoji property (UTS 51
emoji-data, property Emoji), the set matched by one step of the
regular expression test for an emoji code point used in the source. -/
def emojiRanges : List (Nat × Nat) :=
  [(0x23, 0x23), (0x2A, 0x2A), (0x30, 0x39), (0xA9, 0xA9), (0xAE, 0xAE),
   (0x203C, 0x203C), (0x2049, 0x2049), (0x2122, 0x2122), (0x2139, 0x2139),
   (0x2194, 0x2199), (0x21A9, 0x21AA), (0x231A, 0x231B), (0x2328, 0x2328),
   (0x23CF, 0x23CF), (0x23E9, 0x23F3), (0x23F8, 0x23FA), (0x24C2, 0x24C2),
   (0x25AA, 0x25AB), (0x25B6, 0x25B6), (0x25C0, 0x25C0), (0x25FB, 0x25FE),
   (0x2600, 0x2604), (0x260E, 0x260E), (0x2611, 0x2611), (0x2614, 0x2615),
   (0x2618, 0x2618), (0x261D, 0x261D), (0x2620, 0x2620), (0x2622, 0x2623),
   (0x2626, 0x2626), (0x262A, 0x262A), (0x262E, 0x262F), (0x2638, 0x263A),
   (0x2640, 0x2640), (0x2642, 0x2642), (0x2648, 0x2653), (0x265F, 0x2660),
   (0x2663, 0x2663), (0x2665, 0x2666), (0x2668, 0x2668), (0x267B, 0x267B),
   (0x267E, 0x267F), (0x2692, 0x2697), (0x2699, 0x2699), (0x269B, 0x269C),
   (0x26A0, 0x26A1), (0x26A7, 0x26A7), (0x26AA, 0x26AB), (0x26B0, 0x26B1),
   (0x26BD, 0x26BE), (0x26C4, 0x26C5), (0x26C8, 0x26C8), (0x26CE, 0x26CF),
   (0x26D1, 0x26D1), (0x26D3, 0x26D4), (0x26E9, 0x26EA), (0x26F0, 0x26F5),
   (0x26F7, 0x26FA), (0x26FD, 0x26FD), (0x2702, 0x2702), (0x2705, 0x2705),
   (0x2708, 0x270D), (0x270F, 0x270F), (0x2712, 0x2712), (0x2714, 0x2714),
   (0x2716, 0x2716), (0x271D, 0x271D), (0x2721, 0x2721), (0x2728, 0x2728),
   (0x2733, 0x2734), (0x2744, 0x2744), (0x2747, 0x2747), (0x274C, 0x274C),
   (0x274E, 0x274E), (0x2753, 0x2755), (0x2757, 0x2757), (0x2763, 0x2764),
   (0x2795, 0x2797), (0x27A1, 0x27A1), (0x27B0, 0x27B0), (0x27BF, 0x27BF),
   (0x2934, 0x2935), (0x2B05, 0x2B07), (0x2B1B, 0x2B1C), (0x2B50, 0x2B50),
   (0x2B55, 0x2B55), (0x3030, 0x3030), (0x303D, 0x303D), (0x3297, 0x3297),
   (0x3299, 0x3299), (0x1F004, 0x1F004), (0x1F0CF, 0x1F0CF),
   (0x1F170, 0x1F171), (0x1F17E, 0x1F17F), (0x1F18E, 0x1F18E),
   (0x1F191, 0x1F19A), (0x1F1E6, 0x1F1FF), (0x1F201, 0x1F202),
   (0x1F21A, 0x1F21A), (0x1F22F, 0x1F22F), (0x1F232, 0x1F23A),
   (0x1F250, 0x1F251), (0x1F300, 0x1F321), (0x1F324, 0x1F393),
   (0x1F396, 0x1F397), (0x1F399, 0x1F39B), (0x1F39E, 0x1F3F0),
   (0x1F3F3, 0x1F3F5), (0x1F3F7, 0x1F4FD), (0x1F4FF, 0x1F53D),
   (0x1F549, 0x1F54E), (0x1F550, 0x1F567), (0x1F56F, 0x1F570),
   (0x1F573, 0x1F57A), (0x1F587, 0x1F587), (0x1F58A, 0x1F58D),
   (0x1F590, 0x1F590), (0x1F595, 0x1F596), (0x1F5A4, 0x1F5A5),
   (0x1F5A8, 0x1F5A8), (0x1F5B1, 0x1F5B2), (0x1F5BC, 0x1F5BC),
   (0x1F5C2, 0x1F5C4), (0x1F5D1, 0x1F5D3), (0x1F5DC, 0x1F5DE),
   (0x1F5E1, 0x1F5E1), (0x1F5E3, 0x1F5E3), (0x1F5E8, 0x1F5E8),
   (0x1F5EF, 0x1F5EF), (0x1F5F3, 0x1F5F3), (0x1F5FA, 0x1F64F),
   (0x1F680, 0x1F6C5), (0x1F6CB, 0x1F6D2), (0x1F6D5, 0x1F6D7),
   (0x1F6DC, 0x1F6E5), (0x1F6E9, 0x1F6E9), (0x1F6EB, 0x1F6EC),
   (0x1F6F0, 0x1F6F0), (0x1F6F3, 0x1F6FC), (0x1F7E0, 0x1F7EB),
   (0x1F7F0, 0x1F7F0), (0x1F90C, 0x1F93A), (0x1F93C, 0x1F945),
   (0x1F947, 0x1F9FF), (0x1FA70, 0x1FA7C), (0x1FA80, 0x1FA88),
   (0x1FA90, 0x1FABD), (0x1FABF, 0x1FAC5), (0x1FACE, 0x1FADB),
   (0x1FAE0, 0x1FAE8), (0x1FAF0, 0x1FAF8)]

/-- The code point carries the Unicode Emoji property. -/
def isEmojiChar (c : Char) : Bool :=
  emojiRanges.any (fun r => decide (r.1 ≤ c.toNat) && decide (c.toNat ≤ r.2))

/-- Embeds the anchored emoji test of addEmojiToCommitMessage: with the
unicode flag the pattern matches exactly when the first code point of the
string has the Emoji property. -/
def startsWithEmoji (s : String) : Bool :=
  match s.data with
  | [] => false
  | c :: _ => isEmojiChar c

/-- Word character of the JavaScript regular expressions used in the
source (no unicode flag on the header pattern): ASCII letter, digit or
underscore. -/
def isWordChar (c : Char) : Bool :=
  (decide ('a' ≤ c) && decide (c ≤ 'z')) ||
  (decide ('A' ≤ c) && decide (c ≤ 'Z')) ||
  (decide ('0' ≤ c) && decide (c ≤ '9')) ||
  c == '_'

/-- JavaScript regular-expression line terminators, which the dot does
not match. -/
def isLineTerminator (c : Char) : Bool :=
  c == '\n' || c == '\r' || c.toNat == 0x2028 || c.toNat == 0x2029

/-- Embeds the lazy tail of the header pattern after an opening
parenthesis: scan for the closest closing parenthesis immediately
followed by a colon, consuming only non-line-terminator characters on
the way (each consumed character is matched by a lazy dot). -/
def scanLazyParen : List Char → Bool
  | ')' :: ':' :: _ => true
  | c :: rest => if isLineTerminator c then false else scanLazyParen rest
  | [] => false

/-- Embeds commitMessage.match of the anchored header pattern of
generateCommitMessage (line 230 of the source): one or more word
characters, an optional parenthesized scope, then a colon; returns the
captured type token when the pattern matches at the start. -/
def typeMatch (s : String) : Option String :=
  let w := s.data.takeWhile isWordChar
  let rest := s.data.dropWhile isWordChar
  if w.isEmpty then none
  else
    match rest with
    | ':' :: _ => some (String.mk w)
    | '(' :: afterParen =>
        if scanLazyParen afterParen then some (String.mk w) else none
    | _ => none

/-- Whitespace removed by JavaScript String.prototype.trim (ECMA-262
TrimString): tab through carriage return, space, no-break space, the
Unicode space separators, the line separators and the byte order mark. -/
def isJsWhitespace (c : Char) : Bool :=
  let n := c.toNat
  (decide (0x9 ≤ n) && decide (n ≤ 0xD)) || n == 0x20 || n == 0xA0 ||
  n == 0x1680 || (decide (0x2000 ≤ n) && decide (n ≤ 0x200A)) ||
  n == 0x2028 || n == 0x2029 || n == 0x202F || n == 0x205F ||
  n == 0x3000 || n == 0xFEFF

/-- JavaScript String.prototype.trim. -/
def jsTrim (s : String) : String :=
  String.mk (((s.data.dropWhile isJsWhitespace).reverse.dropWhile
    isJsWhitespace).reverse)

/-- The emojiMap object literal of addEmojiToCommitMessage. -/
def emojiMap : List (String × String) :=
  [("feat", "✨"), ("fix", "🐛"), ("docs", "📚"), ("style", "💄"),
   ("refactor", "♻️"), ("perf", "⚡"), ("test", "✅"), ("chore", "🔧"),
   ("build", "🏗️"), ("ci", "🔄")]

/-- Properties the emojiMap object literal inherits from
Object.prototype, paired with how the template literal of the source
stringifies their values (V8, the engine VS Code runs on, renders a
native function as function NAME() \x7b [native code] \x7d; reading
the proto accessor yields Object.prototype itself, which stringifies
as [object Object]).  A JavaScript indexed access on the object literal
walks this prototype chain before yielding undefined, and every value
found here is truthy. -/
def objectPrototypeEntries : List (String × String) :=
  [("constructor", "function Object() \x7b [native code] \x7d"),
   ("hasOwnProperty", "function hasOwnProperty() \x7b [native code] \x7d"),
   ("isPrototypeOf", "function isPrototypeOf() \x7b [native code] \x7d"),
   ("propertyIsEnumerable",
    "function propertyIsEnumerable() \x7b [native code] \x7d"),
   ("toLocaleString", "function toLocaleString() \x7b [native code] \x7d"),
   ("toString", "function toString() \x7b [native code] \x7d"),
   ("valueOf", "function valueOf() \x7b [native code] \x7d"),
   ("__defineGetter__", "function __defineGetter__() \x7b [native code] \x7d"),
   ("__defineSetter__", "function __defineSetter__() \x7b [native code] \x7d"),
   ("__lookupGetter__", "function __lookupGetter__() \x7b [native code] \x7d"),
   ("__lookupSetter__", "function __lookupSetter__() \x7b [native code] \x7d"),
   ("__proto__", "[object Object]")]

/-- Embeds the expression selecting the prefix at line 286 of the
source: the JavaScript property access on the emojiMap object literal
followed by the truthiness fallback, with the stringification the
template literal applies.  An own key yields its emoji; a key naming a
property inherited from Object.prototype yields that truthy inherited
value stringified, so the fallback is not taken; only a key found
nowhere on the chain yields undefined and hence the sparkles emoji. -/
def emojiFor (type : String) : String :=
  match emojiMap.lookup type with
  | some e => e
  | none =>
      match objectPrototypeEntries.lookup type with
      | some v => v
      | none => "✨"

/-- Embeds addEmojiToCommitMessage: return the message unchanged when its
first code point already has the Emoji property, otherwise prepend the
prefix selected by the type token through the property access modelled
by emojiFor, and a space. -/
def addEmojiToCommitMessage (commitMessage : String) (type : String) :
    String :=
  if startsWithEmoji commitMessage then commitMessage
  else (emojiFor type) ++ " " ++ commitMessage

/-- The fixed fallback commit message of generateCommitMessage. -/
def defaultCommitMessage : String := "✨ feat: implement requested changes"

/-- One element of the choices array of a chat completion response; the
content may be null. -/
structure ChatMessage where
  content : Option String

/-- One candidate completion; the message may be absent. -/
structure ChatChoice where
  message : Option ChatMessage

/-- The completion response: a list of candidate completions, of which
index 0 is used. -/
structure ChatResponse where
  choices : List ChatChoice

/-- Outcome of generateCommitMessage: the value returned or the value
thrown to the caller, plus the error notifications shown to the user
(vscode.window.showErrorMessage calls, in order). -/
structure GenOutcome where
  result : Except ThrownValue String
  errorMessagesShown : List String

/-- Embeds the catch block of generateCommitMessage (lines 237-257):
the notification text selected by inspecting the caught value.  An
Error instance is classified by message substring into the credential,
network, timeout or other category; any other thrown value gets the
generic failure notification. -/
def classifyErrorMessage : ThrownValue → String
  | .errorInstance _ msg =>
      if includesSub msg "API key" then
        "OpenAI API 키가 유효하지 않거나 만료되었습니다. 설정에서 API 키를 확인해주세요."
      else if includesSub msg "network" then
        "네트워크 오류가 발생했습니다. 인터넷 연결을 확인해주세요."
      else if includesSub msg "timeout" then
        "API 요청 시간이 초과되었습니다. 나중에 다시 시도해주세요."
      else
        "AI 커밋 메시지 생성 실패: " ++ msg
  | .objectValue _ _ => "AI 커밋 메시지 생성에 실패했습니다."
  | .primitiveValue => "AI 커밋 메시지 생성에 실패했습니다."

/-- Embeds generateCommitMessage.  The openai parameter is the state of
the client field: none when no API key was configured (the client was
never constructed), otherwise the outcome the completion endpoint
produces when called.  When the client is missing the method throws
before entering its try block; a completion error is caught, classified
and replaced by the fixed default message; a completion response has its
first choice content trimmed, defaulted when empty or absent, its type
token extracted, and the emoji annotation applied. -/
def generateCommitMessage
    (openai : Option (Except ThrownValue ChatResponse)) : GenOutcome :=
  match openai with
  | none =>
      ⟨.error (.errorInstance none
        "OpenAI API is not initialized. Please set your API key in settings."),
       []⟩
  | some (.error e) => ⟨.ok defaultCommitMessage, [classifyErrorMessage e]⟩
  | some (.ok response) =>
      let raw :=
        (response.choices.head?.bind (fun c => c.message)).bind
          (fun m => m.content)
      let commitMessage :=
        match raw with
        | some s => if jsTrim s = "" then defaultCommitMessage else jsTrim s
        | none => defaultCommitMessage
      let type := (typeMatch commitMessage).getD "feat"
      ⟨.ok (addEmojiToCommitMessage commitMessage type), []⟩

/-- Builds a completion response whose single choice carries the given
content text. -/
def mkResponse (content : String) : ChatResponse :=
  ⟨[⟨some ⟨some content⟩⟩]⟩

/-- Embeds the per-file host file-system services used by getFileDiff:
stat checks existence, readFile yields the decoded working-copy text
(the source decodes the raw bytes with a UTF-8 TextDecoder), and
asRelativePath is the workspace-relative rendering of a path. -/
structure Workspace where
  stat : String → Except ThrownValue Unit
  readFile : String → Except ThrownValue String
  asRelativePath : String → String

/-- Embeds one git repository of the git extension API.  The showHead
field embeds the call repo.show of the file at HEAD (show is a Lean
keyword, hence the name); diffWithHEAD embeds repo.diffWithHEAD. -/
structure Repo where
  showHead : String → Except ThrownValue String
  diffWithHEAD : String → Except ThrownValue String

/-- The git extension API object: its open repositories. -/
structure GitAPI where
  repositories : List Repo

/-- One request made to the repository adapter. -/
inductive AdapterRequest where
  | showHead (path : String)
  | diffWithHEAD (path : String)
deriving DecidableEq

/-- Outcome of getFileDiff: the diff text when one was produced, the
console log lines emitted, and the requests issued to the repository
adapter. -/
structure FileDiffResult where
  diff : Option String
  logs : List String
  requests : List AdapterRequest

/-- Embeds getFileDiff (lines 125-163).  A stat failure yields no diff
(the file is skipped).  A successful show of the file at HEAD, or a show
failure that is not the not-tracked condition, proceeds to diffWithHEAD,
whose failure is swallowed by the outer catch.  A not-tracked show
failure synthesizes a new-file diff from the working-copy content, or
yields no diff when the read fails.  Every failure path is inside a
try block of the source, so the embedded function is total: getFileDiff
never throws. -/
def getFileDiff (ws : Workspace) (repo : Repo) (path : String) :
    FileDiffResult :=
  match ws.stat path with
  | .error _ =>
      ⟨none, ["File " ++ path ++ " does not exist or cannot be accessed"], []⟩
  | .ok _ =>
      match repo.showHead path with
      | .ok _ =>
          match repo.diffWithHEAD path with
          | .ok d => ⟨some d, [], [.showHead path, .diffWithHEAD path]⟩
          | .error _ =>
              ⟨none, ["Error getting diff for file " ++ path ++ ":"],
               [.showHead path, .diffWithHEAD path]⟩
      | .error e =>
          if isNotTrackedError e then
            match ws.readFile path with
            | .ok content => ⟨some ("+++ New file\n" ++ content), [],
                              [.showHead path]⟩
            | .error _ =>
                ⟨none, ["Error reading new file " ++ path ++ ":"],
                 [.showHead path]⟩
          else
            match repo.diffWithHEAD path with
            | .ok d => ⟨some d, [], [.showHead path, .diffWithHEAD path]⟩
            | .error _ =>
                ⟨none, ["Error getting diff for file " ++ path ++ ":"],
                 [.showHead path, .diffWithHEAD path]⟩

/-- The per-file section appended to the composite diff by the result
loop of getChangesDiff (line 106 of the source): a leading newline, the
header with the relative path, the diff text and a trailing newline. -/
def diffSection (relPath diffText : String) : String :=
  "\n--- " ++ relPath ++ " ---\n" ++ diffText ++ "\n"

/-- Modelled from the spec: the per-file section format the output
guarantee of the spec describes, with no leading newline before the
header.  Stated only to compare against diffSection, the format the
source actually emits. -/
def specSection (relPath diffText : String) : String :=
  "--- " ++ relPath ++ " ---\n" ++ diffText ++ "\n"

/-- Result of the per-file closure of getChangesDiff: the entry kept for
the composite (relative path and diff, present exactly when the diff was
produced and truthy, i.e. non-empty), with the logs and adapter requests
of the underlying getFileDiff call. -/
structure PerFile where
  entry : Option (String × String)
  logs : List String
  requests : List AdapterRequest

/-- Embeds the async closure mapped over filePaths in getChangesDiff
(lines 82-99).  Its catch block would show a per-file warning only if
the closure body threw, but getFileDiff is total (every failing path of
the source returns undefined instead of rejecting) and the remaining
host calls in the body do not throw, so the closure is total as well and
the warning branch is unreachable. -/
def perFileEntry (ws : Workspace) (repo : Repo) (filePath : String) :
    PerFile :=
  let fd := getFileDiff ws repo filePath
  ⟨match fd.diff with
   | some d => if d = "" then none else some (ws.asRelativePath filePath, d)
   | none => none,
   fd.logs, fd.requests⟩

/-- The optional composite section a path contributes: the section built
from its per-file entry, when one was kept. -/
def sectionOf (ws : Workspace) (repo : Repo) (filePath : String) :
    Option String :=
  (perFileEntry ws repo filePath).entry.map (fun pr => diffSection pr.1 pr.2)

/-- Concatenation of a list of strings, in order. -/
def concatStrings : List String → String
  | [] => ""
  | s :: rest => s ++ concatStrings rest

/-- Outcome of getChangesDiff: the composite document returned or the
value thrown, the error notifications and warning notifications shown to
the user, the console log lines, and the requests issued to the
repository adapter. -/
structure DiffOutcome where
  result : Except ThrownValue String
  errorMessagesShown : List String
  warningMessagesShown : List String
  consoleLogs : List String
  diffRequests : List AdapterRequest

/-- Embeds getChangesDiff (lines 61-111).  A missing git extension or an
empty repository list notifies the user and throws.  An empty path list
returns the empty composite at once.  Otherwise every path is processed
by the per-file closure and the kept entries are folded, in input order,
into the composite with the section format of diffSection.  No warning
notification is ever shown (see perFileEntry). -/
def getChangesDiff (ws : Workspace) (gitExtension : Option GitAPI)
    (filePaths : List String) : DiffOutcome :=
  match gitExtension with
  | none =>
      ⟨.error (.errorInstance none "Git extension not initialized"),
       ["Git 확장이 초기화되지 않았습니다. VS Code를 재시작해보세요."], [], [], []⟩
  | some git =>
      match git.repositories.head? with
      | none =>
          ⟨.error (.errorInstance none "No Git repository found"),
           ["Git 저장소를 찾을 수 없습니다. 현재 워크스페이스가 Git 저장소인지 확인하세요."],
           [], [], []⟩
      | some repo =>
          if filePaths.length = 0 then ⟨.ok "", [], [], [], []⟩
          else
            let results := filePaths.map (perFileEntry ws repo)
            let allDiffs := results.foldl
              (fun acc r =>
                match r.entry with
                | some pr => acc ++ diffSection pr.1 pr.2
                | none => acc) ""
            ⟨.ok allDiffs, [], [], (results.map PerFile.logs).flatten,
             (results.map PerFile.requests).flatten⟩

/-- Sample workspace for concrete instances: every file exists, every
working copy reads as two fixed lines, and paths are already relative. -/
def sampleWs : Workspace :=
  ⟨fun _ => .ok (), fun _ => .ok "line1\nline2\n", fun p => p⟩

/-- Sample repository in which every file is tracked and has the fixed
diff text x. -/
def trackedRepo : Repo := ⟨fun _ => .ok "", fun _ => .ok "x"⟩

/-- Git API exposing only trackedRepo. -/
def trackedGit : GitAPI := ⟨[trackedRepo]⟩

/-- Sample repository in which the diff call fails with a plain error for
the file a and succeeds with the text db for every other file. -/
def failingRepo : Repo :=
  ⟨fun _ => .ok "",
   fun p => if p = "a" then .error (.errorInstance none "boom") else .ok "db"⟩

/-- Git API exposing only failingRepo. -/
def failingGit : GitAPI := ⟨[failingRepo]⟩

/-- Sample repository that reports every path unknown to git. -/
def untrackedRepo : Repo :=
  ⟨fun _ => .error (.errorInstance (some "UnknownPath") "err"),
   fun _ => .ok ""⟩

theorem startsWithEmoji_append (e s : String)
    (h : startsWithEmoji e = true) : startsWithEmoji (e ++ s) = true := by
  unfold startsWithEmoji at *
  rw [String.data_append]
  cases hd : e.data with
  | nil => rw [hd] at h; simp at h
  | cons c rest => rw [hd] at h; simpa using h

theorem emojiFor_startsWithEmoji (t : String)
    (h : objectPrototypeEntries.lookup t = none) :
    startsWithEmoji (emojiFor t) = true := by
  unfold emojiFor
  cases he : emojiMap.lookup t with
  | none =>
      rw [h]
      decide
  | some e =>
      show startsWithEmoji e = true
      simp only [emojiMap, List.lookup] at he
      repeat' split at he
      all_goals first
        | exact Option.noConfusion he
        | (rw [← Option.some.inj he]; decide)

theorem addEmoji_ne_empty (m t : String) (h : m ≠ "") :
    addEmojiToCommitMessage m t ≠ "" := by
  unfold addEmojiToCommitMessage
  split
  · exact h
  · intro hc
    have hlen := congrArg String.length hc
    rw [String.length_append, String.length_append] at hlen
    have hone : (" " : String).length = 1 := by decide
    have hzero : ("" : String).length = 0 := by decide
    rw [hone, hzero] at hlen
    omega

/-- Claim C1 counterexample: with no configured credential the client is
never constructed and generateCommitMessage throws its precondition error
to the caller, showing no notification and returning no default message,
against the claim that every credential error is caught and the default
returned. -/
theorem generateCommitMessage_missing_credential_throws :
    (generateCommitMessage none).result
      = .error (.errorInstance none
          "OpenAI API is not initialized. Please set your API key in settings.")
    ∧ (generateCommitMessage none).errorMessagesShown = [] :=
  ⟨rfl, rfl⟩

/-- Claim C1 (amended): every error from the actual completion call is
caught, classified by inspecting the error text into one of credential,
network, timeout or other, surfaced with the category-specific
notification, and the fixed default commit message is returned instead
of propagating; a missing credential, however, means the client was
never initialized, and generateCommitMessage then throws a precondition
error to its caller before any completion call. -/
theorem generateCommitMessage_error_handling :
    (∀ e : ThrownValue,
        (generateCommitMessage (some (.error e))).result
            = .ok defaultCommitMessage
      ∧ (generateCommitMessage (some (.error e))).errorMessagesShown
            = [classifyErrorMessage e])
  ∧ (∀ (code : Option String) (m : String),
        includesSub m "API key" = true →
        classifyErrorMessage (.errorInstance code m)
          = "OpenAI API 키가 유효하지 않거나 만료되었습니다. 설정에서 API 키를 확인해주세요.")
  ∧ (∀ (code : Option String) (m : String),
        includesSub m "API key" = false → includesSub m "network" = true →
        classifyErrorMessage (.errorInstance code m)
          = "네트워크 오류가 발생했습니다. 인터넷 연결을 확인해주세요.")
  ∧ (∀ (code : Option String) (m : String),
        includesSub m "API key" = false → includesSub m "network" = false →
        includesSub m "timeout" = true →
        classifyErrorMessage (.errorInstance code m)
          = "API 요청 시간이 초과되었습니다. 나중에 다시 시도해주세요.")
  ∧ (∀ (code : Option String) (m : String),
        includesSub m "API key" = false → includesSub m "network" = false →
        includesSub m "timeout" = false →
        classifyErrorMessage (.errorInstance code m)
          = "AI 커밋 메시지 생성 실패: " ++ m)
  ∧ (classifyErrorMessage .primitiveValue = "AI 커밋 메시지 생성에 실패했습니다.")
  ∧ (generateCommitMessage none).result
      = .error (.errorInstance none
          "OpenAI API is not initialized. Please set your API key in settings.") := by
  refine ⟨fun e => ⟨rfl, rfl⟩, ?_, ?_, ?_, ?_, rfl, rfl⟩
  · intro code m h1
    simp [classifyErrorMessage, h1]
  · intro code m h1 h2
    simp [classifyErrorMessage, h1, h2]
  · intro code m h1 h2 h3
    simp [classifyErrorMessage, h1, h2, h3]
  · intro code m h1 h2 h3
    simp [classifyErrorMessage, h1, h2, h3]

theorem generateCommitMessage_error_handling_witness :
    ((generateCommitMessage (some (.error
        (.errorInstance none "a network problem")))).result
      = .ok defaultCommitMessage)
  ∧ includesSub "a network problem" "API key" = false
  ∧ includesSub "a network problem" "network" = true
  ∧ classifyErrorMessage (.errorInstance none "a network problem")
      = "네트워크 오류가 발생했습니다. 인터넷 연결을 확인해주세요." :=
  ⟨(generateCommitMessage_error_handling.1 _).1, by decide, by decide,
   generateCommitMessage_error_handling.2.2.1 none "a network problem"
     (by decide) (by decide)⟩

/-- Claim C3: when the adapter reports the recognizable not-tracked
condition for a file and the working copy is readable, getFileDiff
synthesizes a diff that is exactly the new-file marker followed by the
full working-copy content. -/
theorem getFileDiff_new_file_synthesis (ws : Workspace) (repo : Repo)
    (path : String) (e : ThrownValue) (content : String)
    (hstat : ws.stat path = .ok ())
    (hshow : repo.showHead path = .error e)
    (hnt : isNotTrackedError e = true)
    (hread : ws.readFile path = .ok content) :
    (getFileDiff ws repo path).diff = some ("+++ New file\n" ++ content) := by
  simp [getFileDiff, hstat, hshow, hnt, hread]

theorem getFileDiff_new_file_synthesis_witness :
    sampleWs.stat "new.ts" = .ok ()
  ∧ untrackedRepo.showHead "new.ts"
      = .error (.errorInstance (some "UnknownPath") "err")
  ∧ isNotTrackedError (.errorInstance (some "UnknownPath") "err") = true
  ∧ sampleWs.readFile "new.ts" = .ok "line1\nline2\n"
  ∧ (getFileDiff sampleWs untrackedRepo "new.ts").diff
      = some ("+++ New file\n" ++ "line1\nline2\n") :=
  ⟨rfl, rfl, by decide, rfl,
   getFileDiff_new_file_synthesis sampleWs untrackedRepo "new.ts"
     (.errorInstance (some "UnknownPath") "err") "line1\nline2\n"
     rfl rfl (by decide) rfl⟩

theorem foldl_sections (l : List PerFile) (init : String) :
    l.foldl (fun acc r =>
        match r.entry with
        | some pr => acc ++ diffSection pr.1 pr.2
        | none => acc) init
      = init ++ concatStrings (l.filterMap
          (fun r => r.entry.map (fun pr => diffSection pr.1 pr.2))) := by
  induction l generalizing init with
  | nil => simp [concatStrings, List.foldl]
  | cons r rest ih =>
    cases he : r.entry with
    | none =>
        simp only [List.foldl, he, List.filterMap_cons, Option.map_none']
        exact ih init
    | some pr =>
        simp only [List.foldl, he, List.filterMap_cons, Option.map_some']
        rw [ih (init ++ diffSection pr.1 pr.2)]
        simp [concatStrings, String.append_assoc]

theorem getChangesDiff_result_eq (ws : Workspace) (git : GitAPI)
    (repo : Repo) (rest : List Repo) (paths : List String)
    (h : git.repositories = repo :: rest) :
    (getChangesDiff ws (some git) paths).result
      = .ok (concatStrings (paths.filterMap (sectionOf ws repo))) := by
  cases paths with
  | nil => simp [getChangesDiff, h, concatStrings]
  | cons p ps =>
      simp only [getChangesDiff, h, List.head?]
      rw [if_neg (by simp)]
      simp only [foldl_sections, String.empty_append, List.filterMap_map]
      rfl

theorem getChangesDiff_warnings_nil (ws : Workspace)
    (gx : Option GitAPI) (paths : List String) :
    (getChangesDiff ws gx paths).warningMessagesShown = [] := by
  unfold getChangesDiff
  split
  · rfl
  · split
    · rfl
    · split <;> rfl

theorem getChangesDiff_logs_eq (ws : Workspace) (git : GitAPI)
    (repo : Repo) (rest : List Repo) (p : String) (ps : List String)
    (h : git.repositories = repo :: rest) :
    (getChangesDiff ws (some git) (p :: ps)).consoleLogs
      = (((p :: ps).map (perFileEntry ws repo)).map PerFile.logs).flatten := by
  simp only [getChangesDiff, h, List.head?]
  rw [if_neg (by simp)]

/-- Claim C2 counterexample: in a healthy environment with one tracked
file whose diff text is x, the composite returned by getChangesDiff
carries a newline before the per-file header, so it differs from the
claimed concatenation of sections of the form given by specSection. -/
theorem getChangesDiff_section_format_cex :
    (getChangesDiff sampleWs (some trackedGit) ["a.ts"]).result
      = .ok "\n--- a.ts ---\nx\n"
  ∧ "\n--- a.ts ---\nx\n" ≠ specSection "a.ts" "x" :=
  ⟨rfl, by decide⟩

/-- Claim C2 (amended): the composite returned by getChangesDiff is
exactly the concatenation, in input order, of one section per file that
produced a truthy diff, where each section is a leading newline, the
header with the relative path, the diff text and a trailing newline;
files that produced no diff leave no trace, and when every one of the N
files has a retrievable non-empty diff the composite contains exactly N
sections. -/
theorem getChangesDiff_composite_sections (ws : Workspace) (git : GitAPI)
    (repo : Repo) (rest : List Repo) (paths : List String)
    (h : git.repositories = repo :: rest) :
    (getChangesDiff ws (some git) paths).result
      = .ok (concatStrings (paths.filterMap (sectionOf ws repo)))
  ∧ ((∀ p ∈ paths, ∃ d, (getFileDiff ws repo p).diff = some d ∧ d ≠ "") →
      (paths.filterMap (sectionOf ws repo)).length = paths.length) := by
  refine ⟨getChangesDiff_result_eq ws git repo rest paths h, ?_⟩
  induction paths with
  | nil => intro _; rfl
  | cons p ps ih =>
      intro hall
      obtain ⟨d, hd, hne⟩ := hall p (List.mem_cons_self p ps)
      have hs : sectionOf ws repo p
          = some (diffSection (ws.asRelativePath p) d) := by
        simp [sectionOf, perFileEntry, hd, hne]
      rw [List.filterMap_cons, hs]
      simp only [List.length_cons]
      rw [ih (fun q hq => hall q (List.mem_cons_of_mem p hq))]

theorem getChangesDiff_composite_sections_witness :
    (getChangesDiff sampleWs (some trackedGit) ["a.ts", "b.ts"]).result
      = .ok (concatStrings
          (["a.ts", "b.ts"].filterMap (sectionOf sampleWs trackedRepo))) :=
  (getChangesDiff_composite_sections sampleWs trackedGit trackedRepo []
    ["a.ts", "b.ts"] rfl).1

/-- Claim C4 counterexample: with two files of which exactly one fails
with a plain adapter error (not the not-tracked condition),
getChangesDiff returns the composite of the other file and raises no
exception, but shows no user-facing warning: the failure is only logged
to the console, so the claimed warning to the user does not happen. -/
theorem getChangesDiff_no_user_warning_cex :
    (getChangesDiff sampleWs (some failingGit) ["a", "b"]).result
      = .ok "\n--- b ---\ndb\n"
  ∧ (getChangesDiff sampleWs (some failingGit) ["a", "b"]).warningMessagesShown
      = []
  ∧ (getChangesDiff sampleWs (some failingGit) ["a", "b"]).consoleLogs
      = ["Error getting diff for file a:"] :=
  ⟨rfl, rfl, rfl⟩

/-- Claim C4 (amended): a file that fails with an error other than the
not-tracked condition never aborts processing: getChangesDiff raises no
exception, each of its console log lines is emitted, the file leaves no
trace in the composite (the result equals the one for the other files
alone), and no user-facing warning is shown, because getFileDiff handles
every per-file failure internally and the warning branch of the per-file
closure is unreachable. -/
theorem getChangesDiff_single_failure_skipped (ws : Workspace)
    (git : GitAPI) (repo : Repo) (rest : List Repo)
    (l1 l2 : List String) (bad : String)
    (h : git.repositories = repo :: rest)
    (hbad : (getFileDiff ws repo bad).diff = none) :
    (getChangesDiff ws (some git) (l1 ++ bad :: l2)).result
      = (getChangesDiff ws (some git) (l1 ++ l2)).result
  ∧ (∃ s, (getChangesDiff ws (some git) (l1 ++ bad :: l2)).result = .ok s)
  ∧ (getChangesDiff ws (some git) (l1 ++ bad :: l2)).warningMessagesShown = []
  ∧ (∀ m ∈ (getFileDiff ws repo bad).logs,
       m ∈ (getChangesDiff ws (some git) (l1 ++ bad :: l2)).consoleLogs) := by
  have hsec : sectionOf ws repo bad = none := by
    simp [sectionOf, perFileEntry, hbad]
  refine ⟨?_, ?_, getChangesDiff_warnings_nil ws (some git) (l1 ++ bad :: l2), ?_⟩
  · rw [getChangesDiff_result_eq ws git repo rest _ h,
        getChangesDiff_result_eq ws git repo rest _ h,
        List.filterMap_append, List.filterMap_append, List.filterMap_cons,
        hsec]
  · rw [getChangesDiff_result_eq ws git repo rest _ h]
    exact ⟨_, rfl⟩
  · intro m hm
    cases hsplit : l1 ++ bad :: l2 with
    | nil => exact absurd hsplit (by simp)
    | cons p ps =>
        rw [getChangesDiff_logs_eq ws git repo rest p ps h]
        rw [← hsplit]
        apply List.mem_flatten.mpr
        refine ⟨(perFileEntry ws repo bad).logs, ?_, hm⟩
        apply List.mem_map.mpr
        refine ⟨perFileEntry ws repo bad, ?_, rfl⟩
        apply List.mem_map.mpr
        exact ⟨bad, by simp, rfl⟩

theorem getChangesDiff_single_failure_skipped_witness :
    (getFileDiff sampleWs failingRepo "a").diff = none
  ∧ (getChangesDiff sampleWs (some failingGit) (["b"] ++ "a" :: [])).result
      = (getChangesDiff sampleWs (some failingGit) (["b"] ++ [])).result :=
  ⟨rfl,
   (getChangesDiff_single_failure_skipped sampleWs failingGit failingRepo []
     ["b"] [] "a" rfl rfl).1⟩

/-- Claim C7: in a healthy environment (git extension present, at least
one repository), getChangesDiff on an empty path list returns the empty
composite without error, issues no request to the repository adapter,
and shows no notification. -/
theorem getChangesDiff_empty_paths (ws : Workspace) (git : GitAPI)
    (repo : Repo) (rest : List Repo) (h : git.repositories = repo :: rest) :
    (getChangesDiff ws (some git) []).result = .ok ""
  ∧ (getChangesDiff ws (some git) []).diffRequests = []
  ∧ (getChangesDiff ws (some git) []).errorMessagesShown = []
  ∧ (getChangesDiff ws (some git) []).warningMessagesShown = [] := by
  simp [getChangesDiff, h]

theorem getChangesDiff_empty_paths_witness :
    (getChangesDiff sampleWs (some trackedGit) []).result = .ok ""
  ∧ (getChangesDiff sampleWs (some trackedGit) []).diffRequests = [] :=
  ⟨(getChangesDiff_empty_paths sampleWs trackedGit trackedRepo [] rfl).1,
   (getChangesDiff_empty_paths sampleWs trackedGit trackedRepo [] rfl).2.1⟩

/-- Claim C8: getChangesDiff aborts the whole call, notifying the user
and throwing with no partial result, exactly when the git extension is
unavailable or no repository is found: in each of those two cases the
specific error is thrown after the matching notification, and in every
other case the call returns a composite. -/
theorem getChangesDiff_env_abort_iff (ws : Workspace)
    (gx : Option GitAPI) (paths : List String) :
    (gx = none →
        (getChangesDiff ws gx paths).result
          = .error (.errorInstance none "Git extension not initialized")
      ∧ (getChangesDiff ws gx paths).errorMessagesShown
          = ["Git 확장이 초기화되지 않았습니다. VS Code를 재시작해보세요."])
  ∧ (∀ git, gx = some git → git.repositories = [] →
        (getChangesDiff ws gx paths).result
          = .error (.errorInstance none "No Git repository found")
      ∧ (getChangesDiff ws gx paths).errorMessagesShown
          = ["Git 저장소를 찾을 수 없습니다. 현재 워크스페이스가 Git 저장소인지 확인하세요."])
  ∧ (∀ git repo rest, gx = some git → git.repositories = repo :: rest →
        ∃ s, (getChangesDiff ws gx paths).result = .ok s) := by
  refine ⟨?_, ?_, ?_⟩
  · rintro rfl
    exact ⟨rfl, rfl⟩
  · rintro git rfl hrepos
    constructor <;> simp [getChangesDiff, hrepos]
  · rintro git repo rest rfl hrepos
    rw [getChangesDiff_result_eq ws git repo rest paths hrepos]
    exact ⟨_, rfl⟩

theorem getChangesDiff_env_abort_iff_witness :
    (getChangesDiff sampleWs none ["a.ts"]).result
      = .error (.errorInstance none "Git extension not initialized")
  ∧ (getChangesDiff sampleWs none ["a.ts"]).errorMessagesShown
      = ["Git 확장이 초기화되지 않았습니다. VS Code를 재시작해보세요."] :=
  (getChangesDiff_env_abort_iff sampleWs none ["a.ts"]).1 rfl

theorem default_pipeline_fixed :
    addEmojiToCommitMessage defaultCommitMessage
      ((typeMatch defaultCommitMessage).getD "feat") = defaultCommitMessage := by
  decide

/-- Claim C5 counterexample: the type token constructor is absent from
the emoji table, yet it does not map to the sparkles emoji: the property
access on the object literal finds the Object constructor inherited from
Object.prototype, a truthy value, so its stringification is prepended
instead, both in addEmojiToCommitMessage and through the whole
generation pipeline on the completion constructor: refactor class. -/
theorem addEmoji_prototype_key_cex :
    emojiMap.lookup "constructor" = none
  ∧ addEmojiToCommitMessage "constructor: refactor class" "constructor"
      = "function Object() \x7b [native code] \x7d constructor: refactor class"
  ∧ addEmojiToCommitMessage "constructor: refactor class" "constructor"
      ≠ "✨" ++ " " ++ "constructor: refactor class"
  ∧ (generateCommitMessage (some (.ok
        (mkResponse "constructor: refactor class")))).result
      = .ok "function Object() \x7b [native code] \x7d constructor: refactor class" :=
  ⟨rfl, rfl, by decide, rfl⟩

/-- Claim C5 (amended): when a message does not already begin with an
emoji code point, the prefix prepended is the value of the property
access on the emoji table object: the listed emoji for the ten table
keys; the sample completion with a fix header comes back prefixed with
the bug emoji and otherwise unchanged; a completion with no recognizable
header gets the sparkles emoji as the feat default; a type token that is
neither a table key nor the name of a property inherited from
Object.prototype maps to the sparkles emoji; but a type token naming an
inherited property prepends that inherited value stringified, not the
sparkles emoji. -/
theorem addEmoji_table_and_pipeline :
    (∀ msg t, startsWithEmoji msg = false →
        addEmojiToCommitMessage msg t = (emojiFor t) ++ " " ++ msg)
  ∧ (∀ t e, emojiMap.lookup t = some e → emojiFor t = e)
  ∧ (generateCommitMessage (some (.ok
        (mkResponse "fix(parser): correct off-by-one")))).result
      = .ok "🐛 fix(parser): correct off-by-one"
  ∧ (generateCommitMessage (some (.ok
        (mkResponse "correct the off by one")))).result
      = .ok "✨ correct the off by one"
  ∧ (∀ t msg, emojiMap.lookup t = none →
        objectPrototypeEntries.lookup t = none →
        startsWithEmoji msg = false →
        addEmojiToCommitMessage msg t = "✨" ++ " " ++ msg)
  ∧ (∀ t v msg, emojiMap.lookup t = none →
        objectPrototypeEntries.lookup t = some v →
        startsWithEmoji msg = false →
        addEmojiToCommitMessage msg t = v ++ " " ++ msg) := by
  refine ⟨?_, ?_, rfl, rfl, ?_, ?_⟩
  · intro msg t h
    simp [addEmojiToCommitMessage, h]
  · intro t e h
    simp [emojiFor, h]
  · intro t msg h1 h2 h3
    simp [addEmojiToCommitMessage, h3, emojiFor, h1, h2]
  · intro t v msg h1 h2 h3
    simp [addEmojiToCommitMessage, h3, emojiFor, h1, h2]

theorem addEmoji_table_and_pipeline_witness :
    startsWithEmoji "hello" = false
  ∧ addEmojiToCommitMessage "hello" "fix" = (emojiFor "fix") ++ " " ++ "hello"
  ∧ emojiMap.lookup "wip" = none
  ∧ objectPrototypeEntries.lookup "wip" = none
  ∧ addEmojiToCommitMessage "hello" "wip" = "✨" ++ " " ++ "hello" :=
  ⟨by decide, addEmoji_table_and_pipeline.1 "hello" "fix" (by decide),
   by decide, by decide,
   addEmoji_table_and_pipeline.2.2.2.2.1 "wip" "hello" (by decide) (by decide)
     (by decide)⟩

/-- Claim C6: generateCommitMessage never returns an empty string; and
whenever the first completion has no content or its content trims to
empty, the fixed default feat message is the returned value (the emoji
annotation leaves the default unchanged because it already starts with
an emoji). -/
theorem generateCommitMessage_never_empty :
    (∀ (openai : Option (Except ThrownValue ChatResponse)) (m : String),
        (generateCommitMessage openai).result = .ok m → m ≠ "")
  ∧ (∀ resp : ChatResponse,
        (match (resp.choices.head?.bind (fun c => c.message)).bind
            (fun m0 => m0.content) with
         | some s => jsTrim s = ""
         | none => True) →
        (generateCommitMessage (some (.ok resp))).result
          = .ok defaultCommitMessage) := by
  constructor
  · intro openai m hm
    rcases openai with _ | call
    · simp [generateCommitMessage] at hm
    · rcases call with e | resp
      · simp [generateCommitMessage] at hm
        rw [← hm]
        decide
      · simp only [generateCommitMessage] at hm
        have hinj := Except.ok.inj hm
        rw [← hinj]
        apply addEmoji_ne_empty
        split
        · split
          · decide
          · assumption
        · decide
  · intro resp hresp
    simp only [generateCommitMessage]
    rcases hr : (resp.choices.head?.bind (fun c => c.message)).bind
        (fun m0 => m0.content) with _ | s
    · simp only [hr]
      rw [default_pipeline_fixed]
    · rw [hr] at hresp
      have hts : jsTrim s = "" := hresp
      simp only [hr]
      rw [if_pos hts, default_pipeline_fixed]

theorem generateCommitMessage_never_empty_witness :
    jsTrim "   " = ""
  ∧ (generateCommitMessage (some (.ok (mkResponse "   ")))).result
      = .ok defaultCommitMessage
  ∧ defaultCommitMessage ≠ "" := by
  have h2 := generateCommitMessage_never_empty.2 (mkResponse "   ")
    (show jsTrim "   " = "" from rfl)
  exact ⟨rfl, h2, generateCommitMessage_never_empty.1 _ _ h2⟩

/-- Claim C9 counterexample: applying the emoji annotation twice does
not always equal applying it once: for the type token constructor the
property access finds the Object constructor inherited from
Object.prototype and prepends its stringification, which does not begin
with an emoji code point, so a second application prepends the prefix
again. -/
theorem addEmoji_not_idempotent_cex :
    addEmojiToCommitMessage "wip" "constructor"
      = "function Object() \x7b [native code] \x7d wip"
  ∧ addEmojiToCommitMessage
        (addEmojiToCommitMessage "wip" "constructor") "constructor"
      ≠ addEmojiToCommitMessage "wip" "constructor" :=
  ⟨rfl, by decide⟩

/-- Claim C9 (amended): a message that already starts with an emoji code
point is returned unchanged, so no additional emoji is ever prepended to
such a message; and applying addEmojiToCommitMessage twice with the same
type equals applying it once for every type token that does not name a
property inherited from Object.prototype (for those tokens the prepended
prefix is the stringified inherited value, which does not begin with an
emoji, and a second application prepends again). -/
theorem addEmoji_idempotent :
    (∀ msg t, startsWithEmoji msg = true →
        addEmojiToCommitMessage msg t = msg)
  ∧ (∀ msg t, objectPrototypeEntries.lookup t = none →
        addEmojiToCommitMessage (addEmojiToCommitMessage msg t) t
          = addEmojiToCommitMessage msg t) := by
  constructor
  · intro msg t h
    simp [addEmojiToCommitMessage, h]
  · intro msg t hproto
    by_cases h : startsWithEmoji msg = true
    · simp [addEmojiToCommitMessage, h]
    · have h' : startsWithEmoji msg = false := by
        cases hb : startsWithEmoji msg
        · rfl
        · exact absurd hb h
      have hstep : addEmojiToCommitMessage msg t
          = (emojiFor t) ++ " " ++ msg := by
        simp [addEmojiToCommitMessage, h']
      rw [hstep]
      have hs : startsWithEmoji (((emojiFor t) ++ " ") ++ msg) = true :=
        startsWithEmoji_append _ msg
          (startsWithEmoji_append _ " " (emojiFor_startsWithEmoji t hproto))
      simp [addEmojiToCommitMessage, hs]

theorem addEmoji_idempotent_witness :
    startsWithEmoji "🐛 x" = true
  ∧ addEmojiToCommitMessage "🐛 x" "feat" = "🐛 x"
  ∧ objectPrototypeEntries.lookup "fix" = none
  ∧ addEmojiToCommitMessage (addEmojiToCommitMessage "wip" "fix") "fix"
      = addEmojiToCommitMessage "wip" "fix" :=
  ⟨by decide, addEmoji_idempotent.1 "🐛 x" "feat" (by decide), by decide,
   addEmoji_idempotent.2 "wip" "fix" (by decide)⟩

/-- Claim C10: a message whose first character is an ASCII digit, a hash
sign or an asterisk is returned unchanged by the emoji annotation for
every type, because those code points carry the Unicode Emoji property
tested by the anchored emoji pattern; in particular the completion 123:
bump version passes through the whole generation pipeline without an
emoji prefix. -/
theorem addEmoji_digit_hash_star_unchanged :
    (∀ (msg t : String) (c : Char), msg.data.head? = some c →
        ((0x30 ≤ c.toNat ∧ c.toNat ≤ 0x39) ∨ c = '#' ∨ c = '*') →
        addEmojiToCommitMessage msg t = msg)
  ∧ (generateCommitMessage (some (.ok (mkResponse "123: bump version")))).result
      = .ok "123: bump version" := by
  constructor
  · intro msg t c hc hcl
    have hm : startsWithEmoji msg = true := by
      unfold startsWithEmoji
      cases hd : msg.data with
      | nil =>
          rw [hd, List.head?_nil] at hc
          exact Option.noConfusion hc
      | cons c0 restc =>
          rw [hd, List.head?_cons] at hc
          have hc0 : c0 = c := Option.some.inj hc
          subst hc0
          show isEmojiChar c0 = true
          unfold isEmojiChar
          apply List.any_eq_true.mpr
          rcases hcl with ⟨ha, hb⟩ | hh | hh
          · refine ⟨(0x30, 0x39), by decide, ?_⟩
            rw [Bool.and_eq_true, decide_eq_true_eq, decide_eq_true_eq]
            exact ⟨ha, hb⟩
          · subst hh
            exact ⟨(0x23, 0x23), by decide, by decide⟩
          · subst hh
            exact ⟨(0x2A, 0x2A), by decide, by decide⟩
    simp [addEmojiToCommitMessage, hm]
  · rfl

theorem addEmoji_digit_hash_star_unchanged_witness :
    ("1x" : String).data.head? = some '1'
  ∧ addEmojiToCommitMessage "1x" "feat" = "1x" :=
  ⟨by decide,
   addEmoji_digit_hash_star_unchanged.1 "1x" "feat" '1' (by decide)
     (Or.inl (by decide))⟩
